import Mathlib

/-!
Shallow embedding of the python-zwo binding (src/zwo/eaf.py, src/zwo/efw.py).

The native vendor library is external to the repository; its behaviour is
modelled as an oracle: each embedded operation takes the integer return code
the native call would produce, and the values the native call would write into
its by-reference out-parameters, as explicit arguments.  The embedding then
reproduces exactly what the Python binding does with those values: the
dispatch layers (`ZwoEafDevice.__call__`, `ZwoEfwDevice.__call__`) become the
functions `ZwoEafDevice.call` / `ZwoEfwDevice.call` returning `Except PyError`,
a raised Python exception becomes an `Except.error`, and the client wrapper
methods of `Focuser` / `FilterWheel` become functions composing with the
dispatch result.
-/

namespace Zwo

/-- A Python exception escaping the binding to the caller.
`zwoFocuserError` models `ZwoFocuserError(msg)` (eaf.py line 112),
`zwoFilterWheelError` models `ZwoFilterWheelError(msg)` (efw.py line 102), and
`valueError` models the `ValueError` that Python's `IntEnum` constructor raises
when the integer return code is not a member of the enumeration (the lookup
`EAF_ERROR_CODE(result)` / `EFW_ERROR_CODE(result)` happens while the message
is being built, so for an unknown code the `ValueError` is what propagates);
it carries the offending integer and the enumeration's name. -/
inductive PyError where
  | zwoFocuserError (msg : String)
  | zwoFilterWheelError (msg : String)
  | valueError (badCode : Int) (enumName : String)
deriving DecidableEq, Repr

/-- The `EAF_ERROR_CODE` IntEnum of eaf.py (members and their integer values:
`EAF_SUCCESS = 0`, then `auto()` up to `EAF_ERROR_CLOSED = 9`, and
`EAF_ERROR_END = -1`). -/
inductive EAF_ERROR_CODE where
  | EAF_SUCCESS
  | EAF_ERROR_INVALID_INDEX
  | EAF_ERROR_INVALID_ID
  | EAF_ERROR_INVALID_VALUE
  | EAF_ERROR_REMOVED
  | EAF_ERROR_MOVING
  | EAF_ERROR_ERROR_STATE
  | EAF_ERROR_GENERAL_ERROR
  | EAF_ERROR_NOT_SUPPORTED
  | EAF_ERROR_CLOSED
  | EAF_ERROR_END
deriving DecidableEq, Repr

/-- The integer value of each `EAF_ERROR_CODE` member. -/
def EAF_ERROR_CODE.value : EAF_ERROR_CODE → Int
  | .EAF_SUCCESS => 0
  | .EAF_ERROR_INVALID_INDEX => 1
  | .EAF_ERROR_INVALID_ID => 2
  | .EAF_ERROR_INVALID_VALUE => 3
  | .EAF_ERROR_REMOVED => 4
  | .EAF_ERROR_MOVING => 5
  | .EAF_ERROR_ERROR_STATE => 6
  | .EAF_ERROR_GENERAL_ERROR => 7
  | .EAF_ERROR_NOT_SUPPORTED => 8
  | .EAF_ERROR_CLOSED => 9
  | .EAF_ERROR_END => -1

/-- Python's `EAF_ERROR_CODE(r)` value lookup: `some` member when `r` is a
member value, `none` when the lookup would raise `ValueError`. -/
def EAF_ERROR_CODE.ofInt? (r : Int) : Option EAF_ERROR_CODE :=
  if r = 0 then some .EAF_SUCCESS
  else if r = 1 then some .EAF_ERROR_INVALID_INDEX
  else if r = 2 then some .EAF_ERROR_INVALID_ID
  else if r = 3 then some .EAF_ERROR_INVALID_VALUE
  else if r = 4 then some .EAF_ERROR_REMOVED
  else if r = 5 then some .EAF_ERROR_MOVING
  else if r = 6 then some .EAF_ERROR_ERROR_STATE
  else if r = 7 then some .EAF_ERROR_GENERAL_ERROR
  else if r = 8 then some .EAF_ERROR_NOT_SUPPORTED
  else if r = 9 then some .EAF_ERROR_CLOSED
  else if r = -1 then some .EAF_ERROR_END
  else none

/-- The Python `.name` attribute of each `EAF_ERROR_CODE` member. -/
def EAF_ERROR_CODE.pyName : EAF_ERROR_CODE → String
  | .EAF_SUCCESS => "EAF_SUCCESS"
  | .EAF_ERROR_INVALID_INDEX => "EAF_ERROR_INVALID_INDEX"
  | .EAF_ERROR_INVALID_ID => "EAF_ERROR_INVALID_ID"
  | .EAF_ERROR_INVALID_VALUE => "EAF_ERROR_INVALID_VALUE"
  | .EAF_ERROR_REMOVED => "EAF_ERROR_REMOVED"
  | .EAF_ERROR_MOVING => "EAF_ERROR_MOVING"
  | .EAF_ERROR_ERROR_STATE => "EAF_ERROR_ERROR_STATE"
  | .EAF_ERROR_GENERAL_ERROR => "EAF_ERROR_GENERAL_ERROR"
  | .EAF_ERROR_NOT_SUPPORTED => "EAF_ERROR_NOT_SUPPORTED"
  | .EAF_ERROR_CLOSED => "EAF_ERROR_CLOSED"
  | .EAF_ERROR_END => "EAF_ERROR_END"

/-- The `EFW_ERROR_CODE` IntEnum of efw.py (same member values as the EAF
enumeration, with the EFW prefix). -/
inductive EFW_ERROR_CODE where
  | EFW_SUCCESS
  | EFW_ERROR_INVALID_INDEX
  | EFW_ERROR_INVALID_ID
  | EFW_ERROR_INVALID_VALUE
  | EFW_ERROR_REMOVED
  | EFW_ERROR_MOVING
  | EFW_ERROR_ERROR_STATE
  | EFW_ERROR_GENERAL_ERROR
  | EFW_ERROR_NOT_SUPPORTED
  | EFW_ERROR_CLOSED
  | EFW_ERROR_END
deriving DecidableEq, Repr

/-- The integer value of each `EFW_ERROR_CODE` member. -/
def EFW_ERROR_CODE.value : EFW_ERROR_CODE → Int
  | .EFW_SUCCESS => 0
  | .EFW_ERROR_INVALID_INDEX => 1
  | .EFW_ERROR_INVALID_ID => 2
  | .EFW_ERROR_INVALID_VALUE => 3
  | .EFW_ERROR_REMOVED => 4
  | .EFW_ERROR_MOVING => 5
  | .EFW_ERROR_ERROR_STATE => 6
  | .EFW_ERROR_GENERAL_ERROR => 7
  | .EFW_ERROR_NOT_SUPPORTED => 8
  | .EFW_ERROR_CLOSED => 9
  | .EFW_ERROR_END => -1

/-- Python's `EFW_ERROR_CODE(r)` value lookup: `some` member when `r` is a
member value, `none` when the lookup would raise `ValueError`. -/
def EFW_ERROR_CODE.ofInt? (r : Int) : Option EFW_ERROR_CODE :=
  if r = 0 then some .EFW_SUCCESS
  else if r = 1 then some .EFW_ERROR_INVALID_INDEX
  else if r = 2 then some .EFW_ERROR_INVALID_ID
  else if r = 3 then some .EFW_ERROR_INVALID_VALUE
  else if r = 4 then some .EFW_ERROR_REMOVED
  else if r = 5 then some .EFW_ERROR_MOVING
  else if r = 6 then some .EFW_ERROR_ERROR_STATE
  else if r = 7 then some .EFW_ERROR_GENERAL_ERROR
  else if r = 8 then some .EFW_ERROR_NOT_SUPPORTED
  else if r = 9 then some .EFW_ERROR_CLOSED
  else if r = -1 then some .EFW_ERROR_END
  else none

/-- The Python `.name` attribute of each `EFW_ERROR_CODE` member. -/
def EFW_ERROR_CODE.pyName : EFW_ERROR_CODE → String
  | .EFW_SUCCESS => "EFW_SUCCESS"
  | .EFW_ERROR_INVALID_INDEX => "EFW_ERROR_INVALID_INDEX"
  | .EFW_ERROR_INVALID_ID => "EFW_ERROR_INVALID_ID"
  | .EFW_ERROR_INVALID_VALUE => "EFW_ERROR_INVALID_VALUE"
  | .EFW_ERROR_REMOVED => "EFW_ERROR_REMOVED"
  | .EFW_ERROR_MOVING => "EFW_ERROR_MOVING"
  | .EFW_ERROR_ERROR_STATE => "EFW_ERROR_ERROR_STATE"
  | .EFW_ERROR_GENERAL_ERROR => "EFW_ERROR_GENERAL_ERROR"
  | .EFW_ERROR_NOT_SUPPORTED => "EFW_ERROR_NOT_SUPPORTED"
  | .EFW_ERROR_CLOSED => "EFW_ERROR_CLOSED"
  | .EFW_ERROR_END => "EFW_ERROR_END"

/-- The keys of the `_functions_` catalog of `ZwoEafDevice` (eaf.py lines
77-104): every native entry point the focuser binding supports. -/
def eafFunctionNames : List String :=
  ["EAFGetNum", "EAFGetProductIDs", "EAFCheck", "EAFGetID", "EAFOpen",
   "EAFGetProperty", "EAFMove", "EAFStop", "EAFIsMoving", "EAFGetPosition",
   "EAFResetPostion", "EAFGetTemp", "EAFSetBeep", "EAFGetBeep",
   "EAFSetMaxStep", "EAFGetMaxStep", "EAFStepRange", "EAFSetReverse",
   "EAFGetReverse", "EAFSetBacklash", "EAFGetBacklash", "EAFClose",
   "EAFGetSDKVersion", "EAFGetFirmwareVersion", "EAFGetSerialNumber",
   "EAFSetID"]

/-- The `special_names` allow-list of `ZwoEafDevice.__call__` (eaf.py
line 109). -/
def eafSpecialNames : List String :=
  ["EAFGetNum", "EAFGetProductIDs", "EAFGetSDKVersion", "EAFCheck"]

/-- The keys of the `_functions_` catalog of `ZwoEfwDevice` (efw.py lines
77-94): every native entry point the filter-wheel binding supports. -/
def efwFunctionNames : List String :=
  ["EFWGetNum", "EFWGetProductIDs", "EFWGetID", "EFWOpen", "EFWClose",
   "EFWGetProperty", "EFWGetPosition", "EFWSetPosition", "EFWSetDirection",
   "EFWGetDirection", "EFWCalibrate", "EFWGetSDKVersion",
   "EFWGetHWErrorCode", "EFWGetFirmwareVersion", "EFWGetSerialNumber",
   "EFWSetID"]

/-- The `special_names` allow-list of `ZwoEfwDevice.__call__` (efw.py
line 99). -/
def efwSpecialNames : List String :=
  ["EFWGetNum", "EFWGetProductIDs", "EFWGetSDKVersion"]

namespace ZwoEafDevice

/-- `ZwoEafDevice.__call__` (eaf.py lines 106-114): given the entry-point name
and the integer the native call returned, either re-raise (`Except.error`) or
hand the raw value back.  Python's `if result and self.name not in
special_names` is the conjunction below (`result` is truthy iff nonzero);
`EAF_ERROR_CODE(result)` either names the member (then `ZwoFocuserError` is
raised with that name as its message) or raises `ValueError` itself. -/
def call (name : String) (result : Int) : Except PyError Int :=
  if result ≠ 0 ∧ name ∉ eafSpecialNames then
    match EAF_ERROR_CODE.ofInt? result with
    | some c => Except.error (PyError.zwoFocuserError c.pyName)
    | none => Except.error (PyError.valueError result "EAF_ERROR_CODE")
  else Except.ok result

end ZwoEafDevice

/-- The message the filter-wheel dispatch builds for a recognised nonzero
code: `f"{self.name} error {result} ({EFW_ERROR_CODE(result).name})"`
(efw.py line 101). -/
def efwErrMsg (name : String) (result : Int) (codeName : String) : String :=
  name ++ " error " ++ toString result ++ " (" ++ codeName ++ ")"

namespace ZwoEfwDevice

/-- `ZwoEfwDevice.__call__` (efw.py lines 96-104): same shape as the focuser
dispatch, but the allow-list lacks a check entry and the raised message
carries the entry-point name and raw code alongside the member name. -/
def call (name : String) (result : Int) : Except PyError Int :=
  if result ≠ 0 ∧ name ∉ efwSpecialNames then
    match EFW_ERROR_CODE.ofInt? result with
    | some c => Except.error (PyError.zwoFilterWheelError (efwErrMsg name result c.pyName))
    | none => Except.error (PyError.valueError result "EFW_ERROR_CODE")
  else Except.ok result

end ZwoEfwDevice

/-- A value as the Python caller observes it, for the operations whose shape
differs between families (a formatted string for the focuser firmware query,
a tuple of ints for the filter-wheel one). -/
inductive PyValue where
  | str (s : String)
  | tup (xs : List Nat)
deriving DecidableEq, Repr

/-- Python's `int.from_bytes(bs, "big")`: fold the byte list most-significant
first. -/
def bytesToNatBE (bs : List Nat) : Nat :=
  bs.foldl (fun acc b => acc * 256 + b) 0

/-- Python's `xs[:n]` slice of a list with an integer stop: a negative stop
counts from the end of the list. -/
def pySliceTo (xs : List Int) (n : Int) : List Int :=
  if n < 0 then xs.take (xs.length - (-n).toNat) else xs.take n.toNat

namespace Focuser

/-- `Focuser.EAFGetNum` (eaf.py lines 129-134): the raw dispatch result is
returned directly. -/
def EAFGetNum (nativeResult : Int) : Except PyError Int :=
  ZwoEafDevice.call "EAFGetNum" nativeResult

/-- `Focuser.EAFCheck` (eaf.py lines 144-149): the raw dispatch result is
returned directly. -/
def EAFCheck (vid pid : Int) (nativeResult : Int) : Except PyError Int :=
  let _ := (vid, pid)
  ZwoEafDevice.call "EAFCheck" nativeResult

/-- `Focuser.EAFGetProductIDs` (eaf.py lines 136-142): `pid_array` is a
128-slot buffer (`buffer` is its content after the native call wrote it), the
dispatch result is the logical length, and the Python slice
`pid_array[:pid_array_len]` truncates the buffer to it. -/
def EAFGetProductIDs (buffer : List Int) (nativeResult : Int) :
    Except PyError (List Int) :=
  (ZwoEafDevice.call "EAFGetProductIDs" nativeResult).map
    (fun len => pySliceTo buffer len)

/-- `Focuser.EAFOpen` (eaf.py lines 159-162): `not result` on the dispatch
value. -/
def EAFOpen (ids : Int) (nativeResult : Int) : Except PyError Bool :=
  let _ := ids
  (ZwoEafDevice.call "EAFOpen" nativeResult).map (fun r => decide (r = 0))

/-- `Focuser.EAFMove` (eaf.py lines 172-175): `not result` on the dispatch
value. -/
def EAFMove (ids position : Int) (nativeResult : Int) : Except PyError Bool :=
  let _ := (ids, position)
  (ZwoEafDevice.call "EAFMove" nativeResult).map (fun r => decide (r = 0))

/-- `Focuser.EAFStop` (eaf.py lines 177-180). -/
def EAFStop (ids : Int) (nativeResult : Int) : Except PyError Bool :=
  let _ := ids
  (ZwoEafDevice.call "EAFStop" nativeResult).map (fun r => decide (r = 0))

/-- `Focuser.EAFGetPosition` (eaf.py lines 192-198): on success, the value the
native call wrote into the by-reference `position` out-parameter is
returned. -/
def EAFGetPosition (ids : Int) (nativeResult : Int) (position : Int) :
    Except PyError Int :=
  let _ := ids
  (ZwoEafDevice.call "EAFGetPosition" nativeResult).map (fun _ => position)

/-- `Focuser.EAFResetPostion` (eaf.py lines 200-203). -/
def EAFResetPostion (ids position : Int) (nativeResult : Int) :
    Except PyError Bool :=
  let _ := (ids, position)
  (ZwoEafDevice.call "EAFResetPostion" nativeResult).map (fun r => decide (r = 0))

/-- `Focuser.EAFSetBeep` (eaf.py lines 215-220). -/
def EAFSetBeep (ids : Int) (beep : Bool) (nativeResult : Int) :
    Except PyError Bool :=
  let _ := (ids, beep)
  (ZwoEafDevice.call "EAFSetBeep" nativeResult).map (fun r => decide (r = 0))

/-- `Focuser.EAFSetMaxStep` (eaf.py lines 230-233). -/
def EAFSetMaxStep (ids position : Int) (nativeResult : Int) :
    Except PyError Bool :=
  let _ := (ids, position)
  (ZwoEafDevice.call "EAFSetMaxStep" nativeResult).map (fun r => decide (r = 0))

/-- `Focuser.EAFSetReverse` (eaf.py lines 251-254). -/
def EAFSetReverse (ids : Int) (direction : Bool) (nativeResult : Int) :
    Except PyError Bool :=
  let _ := (ids, direction)
  (ZwoEafDevice.call "EAFSetReverse" nativeResult).map (fun r => decide (r = 0))

/-- `Focuser.EAFSetBacklash` (eaf.py lines 264-267). -/
def EAFSetBacklash (ids backlash : Int) (nativeResult : Int) :
    Except PyError Bool :=
  let _ := (ids, backlash)
  (ZwoEafDevice.call "EAFSetBacklash" nativeResult).map (fun r => decide (r = 0))

/-- `Focuser.EAFClose` (eaf.py lines 277-280). -/
def EAFClose (ids : Int) (nativeResult : Int) : Except PyError Bool :=
  let _ := ids
  (ZwoEafDevice.call "EAFClose" nativeResult).map (fun r => decide (r = 0))

/-- `Focuser.EAFGetFirmwareVersion` (eaf.py lines 287-295): on success the
three `c_ubyte` out-parameters are formatted with the f-string
`f"{major.value}.{minor.value}.{build.value}"`. -/
def EAFGetFirmwareVersion (ids : Int) (nativeResult : Int)
    (major minor build : Nat) : Except PyError PyValue :=
  let _ := ids
  (ZwoEafDevice.call "EAFGetFirmwareVersion" nativeResult).map
    (fun _ => PyValue.str (toString major ++ "." ++ toString minor ++ "." ++ toString build))

/-- `Focuser.EAFGetSerialNumber` (eaf.py lines 297-303): on success the 8-byte
`EAF_ID` record the native call wrote (`serial` is its byte content) is
decoded with `int.from_bytes(serial.id, "big")`. -/
def EAFGetSerialNumber (ids : Int) (nativeResult : Int) (serial : List Nat) :
    Except PyError Nat :=
  let _ := ids
  (ZwoEafDevice.call "EAFGetSerialNumber" nativeResult).map
    (fun _ => bytesToNatBE serial)

/-- `Focuser.EAFSetID` (eaf.py lines 305-308). -/
def EAFSetID (ids : Int) (eaf_id : List Nat) (nativeResult : Int) :
    Except PyError Bool :=
  let _ := (ids, eaf_id)
  (ZwoEafDevice.call "EAFSetID" nativeResult).map (fun r => decide (r = 0))

end Focuser

namespace FilterWheel

/-- `FilterWheel.EFWGetNum` (efw.py lines 119-124): the raw dispatch result is
returned directly. -/
def EFWGetNum (nativeResult : Int) : Except PyError Int :=
  ZwoEfwDevice.call "EFWGetNum" nativeResult

/-- `FilterWheel.EFWGetProductIDs` (efw.py lines 126-134): 128-slot buffer
truncated to the logical length reported by the native call. -/
def EFWGetProductIDs (buffer : List Int) (nativeResult : Int) :
    Except PyError (List Int) :=
  (ZwoEfwDevice.call "EFWGetProductIDs" nativeResult).map
    (fun len => pySliceTo buffer len)

/-- `FilterWheel.EFWOpen` (efw.py lines 144-148): the dispatch value is
discarded and the literal `True` is returned. -/
def EFWOpen (ids : Int) (nativeResult : Int) : Except PyError Bool :=
  let _ := ids
  (ZwoEfwDevice.call "EFWOpen" nativeResult).map (fun _ => true)

/-- `FilterWheel.EFWClose` (efw.py lines 150-154). -/
def EFWClose (ids : Int) (nativeResult : Int) : Except PyError Bool :=
  let _ := ids
  (ZwoEfwDevice.call "EFWClose" nativeResult).map (fun _ => true)

/-- `FilterWheel.EFWGetPosition` (efw.py lines 164-170): on success, the value
written into the by-reference `position` out-parameter is returned. -/
def EFWGetPosition (ids : Int) (nativeResult : Int) (position : Int) :
    Except PyError Int :=
  let _ := ids
  (ZwoEfwDevice.call "EFWGetPosition" nativeResult).map (fun _ => position)

/-- `FilterWheel.EFWSetPosition` (efw.py lines 172-176): the dispatch value is
discarded and the literal `True` is returned. -/
def EFWSetPosition (ids position : Int) (nativeResult : Int) :
    Except PyError Bool :=
  let _ := (ids, position)
  (ZwoEfwDevice.call "EFWSetPosition" nativeResult).map (fun _ => true)

/-- `FilterWheel.EFWSetDirection` (efw.py lines 178-184). -/
def EFWSetDirection (ids : Int) (direction : Bool) (nativeResult : Int) :
    Except PyError Bool :=
  let _ := (ids, direction)
  (ZwoEfwDevice.call "EFWSetDirection" nativeResult).map (fun _ => true)

/-- `FilterWheel.EFWCalibrate` (efw.py lines 194-198). -/
def EFWCalibrate (ids : Int) (nativeResult : Int) : Except PyError Bool :=
  let _ := ids
  (ZwoEfwDevice.call "EFWCalibrate" nativeResult).map (fun _ => true)

/-- `FilterWheel.EFWGetFirmwareVersion` (efw.py lines 213-221): on success the
three `c_ubyte` out-parameters are returned as the tuple
`(major.value, minor.value, build.value)` — no formatting. -/
def EFWGetFirmwareVersion (ids : Int) (nativeResult : Int)
    (major minor build : Nat) : Except PyError PyValue :=
  let _ := ids
  (ZwoEfwDevice.call "EFWGetFirmwareVersion" nativeResult).map
    (fun _ => PyValue.tup [major, minor, build])

/-- `FilterWheel.EFWGetSerialNumber` (efw.py lines 223-229): on success the
raw 8-byte `EFW_ID` record is returned undecoded. -/
def EFWGetSerialNumber (ids : Int) (nativeResult : Int) (serial : List Nat) :
    Except PyError (List Nat) :=
  let _ := ids
  (ZwoEfwDevice.call "EFWGetSerialNumber" nativeResult).map (fun _ => serial)

/-- `FilterWheel.EFWSetID` (efw.py lines 231-235). -/
def EFWSetID (ids : Int) (efw_id : List Nat) (nativeResult : Int) :
    Except PyError Bool :=
  let _ := (ids, efw_id)
  (ZwoEfwDevice.call "EFWSetID" nativeResult).map (fun _ => true)

end FilterWheel

/-- The focuser family's library lookup table (eaf.py lines 25-29):
`{"posix": {...}, "nt": {...}}[os.name][architecture()[0]]`.  A key missing
from either dict raises `KeyError` at module import time, before any device
object can be constructed; that is modelled as `none`. -/
def eafArch (osName width : String) : Option (String × String) :=
  if osName = "posix" then
    if width = "32bit" then some ("linux32", "libEAFFocuser.so")
    else if width = "64bit" then some ("linux64", "libEAFFocuser.so")
    else none
  else if osName = "nt" then
    if width = "32bit" then some ("win32", "EAF_focuser.dll")
    else if width = "64bit" then some ("win64", "EAF_focuser.dll")
    else none
  else none

/-- The filter-wheel family's library lookup table (efw.py lines 25-29),
same shape with the EFW binaries. -/
def efwArch (osName width : String) : Option (String × String) :=
  if osName = "posix" then
    if width = "32bit" then some ("linux32", "libEFWFilter.so")
    else if width = "64bit" then some ("linux64", "libEFWFilter.so")
    else none
  else if osName = "nt" then
    if width = "32bit" then some ("win32", "EFW_filter.dll")
    else if width = "64bit" then some ("win64", "EFW_filter.dll")
    else none
  else none

/-- `True` iff the first character list is a prefix of the second. -/
def charsPrefix : List Char → List Char → Bool
  | [], _ => true
  | _ :: _, [] => false
  | a :: as, b :: bs => a = b && charsPrefix as bs

/-- `True` iff the first character list occurs contiguously inside the
second. -/
def charsContain (pat : List Char) : List Char → Bool
  | [] => charsPrefix pat []
  | c :: cs => charsPrefix pat (c :: cs) || charsContain pat cs

/-- Python's `pat in s` substring containment. -/
def containsStr (s pat : String) : Bool :=
  charsContain pat.data s.data

theorem eafCall_zero (name : String) :
    ZwoEafDevice.call name 0 = Except.ok 0 := by
  unfold ZwoEafDevice.call
  rw [if_neg (fun hc => hc.1 rfl)]

theorem eafCall_special (name : String) (r : Int)
    (h : name ∈ eafSpecialNames) : ZwoEafDevice.call name r = Except.ok r := by
  unfold ZwoEafDevice.call
  rw [if_neg (fun hc => hc.2 h)]

theorem eafCall_known (name : String) (r : Int)
    (c : EAF_ERROR_CODE) (h : name ∉ eafSpecialNames) (hr : r ≠ 0)
    (hc : EAF_ERROR_CODE.ofInt? r = some c) :
    ZwoEafDevice.call name r = Except.error (PyError.zwoFocuserError c.pyName) := by
  unfold ZwoEafDevice.call
  rw [if_pos ⟨hr, h⟩, hc]

theorem eafCall_unknown (name : String) (r : Int)
    (h : name ∉ eafSpecialNames) (hr : r ≠ 0)
    (hc : EAF_ERROR_CODE.ofInt? r = none) :
    ZwoEafDevice.call name r = Except.error (PyError.valueError r "EAF_ERROR_CODE") := by
  unfold ZwoEafDevice.call
  rw [if_pos ⟨hr, h⟩, hc]

theorem eafCall_err (name : String) (r : Int)
    (h : name ∉ eafSpecialNames) (hr : r ≠ 0) :
    ∃ e, ZwoEafDevice.call name r = Except.error e := by
  cases hc : EAF_ERROR_CODE.ofInt? r with
  | some c => exact ⟨_, eafCall_known name r c h hr hc⟩
  | none => exact ⟨_, eafCall_unknown name r h hr hc⟩

theorem efwCall_zero (name : String) :
    ZwoEfwDevice.call name 0 = Except.ok 0 := by
  unfold ZwoEfwDevice.call
  rw [if_neg (fun hc => hc.1 rfl)]

theorem efwCall_special (name : String) (r : Int)
    (h : name ∈ efwSpecialNames) : ZwoEfwDevice.call name r = Except.ok r := by
  unfold ZwoEfwDevice.call
  rw [if_neg (fun hc => hc.2 h)]

theorem efwCall_known (name : String) (r : Int)
    (c : EFW_ERROR_CODE) (h : name ∉ efwSpecialNames) (hr : r ≠ 0)
    (hc : EFW_ERROR_CODE.ofInt? r = some c) :
    ZwoEfwDevice.call name r =
      Except.error (PyError.zwoFilterWheelError (efwErrMsg name r c.pyName)) := by
  unfold ZwoEfwDevice.call
  rw [if_pos ⟨hr, h⟩, hc]

theorem efwCall_unknown (name : String) (r : Int)
    (h : name ∉ efwSpecialNames) (hr : r ≠ 0)
    (hc : EFW_ERROR_CODE.ofInt? r = none) :
    ZwoEfwDevice.call name r = Except.error (PyError.valueError r "EFW_ERROR_CODE") := by
  unfold ZwoEfwDevice.call
  rw [if_pos ⟨hr, h⟩, hc]

theorem efwCall_err (name : String) (r : Int)
    (h : name ∉ efwSpecialNames) (hr : r ≠ 0) :
    ∃ e, ZwoEfwDevice.call name r = Except.error e := by
  cases hc : EFW_ERROR_CODE.ofInt? r with
  | some c => exact ⟨_, efwCall_known name r c h hr hc⟩
  | none => exact ⟨_, efwCall_unknown name r h hr hc⟩

theorem mapCall_err {α : Type} (g : Int → α) {x : Except PyError Int}
    (hx : ∃ e, x = Except.error e) : ∃ e, x.map g = Except.error e := by
  obtain ⟨e, he⟩ := hx
  exact ⟨e, by rw [he]; rfl⟩

theorem mapCall_ok_imp_true (f : Int → Except PyError Int) (g : Int → Bool)
    (h0 : f 0 = Except.ok 0) (hg : g 0 = true)
    (herr : ∀ s, s ≠ 0 → ∃ e, f s = Except.error e) (r : Int) (b : Bool)
    (hb : (f r).map g = Except.ok b) : b = true := by
  by_cases hr : r = 0
  · subst hr
    rw [h0] at hb
    simp only [Except.map] at hb
    injection hb with h'
    rw [← h']
    exact hg
  · obtain ⟨e, he⟩ := herr r hr
    rw [he] at hb
    simp [Except.map] at hb

/-- C1 counterexample: the claim says `EFWSetPosition` reports success
(returns `True`) for every native return code, including nonzero ones.  At
the concrete nonzero native return code 1 the operation instead raises
`ZwoFilterWheelError` (the dispatch layer `ZwoEfwDevice.__call__` inspects
the return value and raises before the wrapper's `return True` is reached),
so it does not return `True`. -/
theorem c1_counterexample :
    FilterWheel.EFWSetPosition 0 5 1 =
      Except.error (PyError.zwoFilterWheelError
        "EFWSetPosition error 1 (EFW_ERROR_INVALID_INDEX)") ∧
    FilterWheel.EFWSetPosition 0 5 1 ≠ Except.ok true := by
  refine ⟨rfl, ?_⟩
  intro h
  cases h

/-- C1 (amended): for the filter-wheel mutating operations (`EFWOpen`,
`EFWClose`, `EFWSetPosition`, `EFWSetDirection`, `EFWCalibrate`,
`EFWSetID`) the wrapper method itself discards the native return value and
returns the literal `True`, but the shared dispatch layer has already raised
`ZwoFilterWheelError` (or `ValueError` for unknown codes) for every nonzero
native return code — so each operation returns `True` exactly when the
native call returns 0 and raises otherwise, the same contract as the
focuser's `EAFMove`. -/
theorem c1_amended_efw_mutators_raise :
    ∀ (ids position r : Int) (direction : Bool) (efw_id : List Nat),
      (r = 0 →
        FilterWheel.EFWOpen ids r = Except.ok true ∧
        FilterWheel.EFWClose ids r = Except.ok true ∧
        FilterWheel.EFWSetPosition ids position r = Except.ok true ∧
        FilterWheel.EFWSetDirection ids direction r = Except.ok true ∧
        FilterWheel.EFWCalibrate ids r = Except.ok true ∧
        FilterWheel.EFWSetID ids efw_id r = Except.ok true ∧
        Focuser.EAFMove ids position r = Except.ok true) ∧
      (r ≠ 0 →
        (∃ e, FilterWheel.EFWOpen ids r = Except.error e) ∧
        (∃ e, FilterWheel.EFWClose ids r = Except.error e) ∧
        (∃ e, FilterWheel.EFWSetPosition ids position r = Except.error e) ∧
        (∃ e, FilterWheel.EFWSetDirection ids direction r = Except.error e) ∧
        (∃ e, FilterWheel.EFWCalibrate ids r = Except.error e) ∧
        (∃ e, FilterWheel.EFWSetID ids efw_id r = Except.error e) ∧
        (∃ e, Focuser.EAFMove ids position r = Except.error e)) := by
  intro ids position r direction efw_id
  constructor
  · intro hr
    subst hr
    exact ⟨rfl, rfl, rfl, rfl, rfl, rfl, rfl⟩
  · intro hr
    refine ⟨?_, ?_, ?_, ?_, ?_, ?_, ?_⟩
    · exact mapCall_err _ (efwCall_err "EFWOpen" r (by decide) hr)
    · exact mapCall_err _ (efwCall_err "EFWClose" r (by decide) hr)
    · exact mapCall_err _ (efwCall_err "EFWSetPosition" r (by decide) hr)
    · exact mapCall_err _ (efwCall_err "EFWSetDirection" r (by decide) hr)
    · exact mapCall_err _ (efwCall_err "EFWCalibrate" r (by decide) hr)
    · exact mapCall_err _ (efwCall_err "EFWSetID" r (by decide) hr)
    · exact mapCall_err _ (eafCall_err "EAFMove" r (by decide) hr)

/-- C1 (amended) witness at concrete inputs: with native code 0 the
filter-wheel set-position operation returns `True`; with native code 1 it
propagates an error. -/
theorem c1_amended_efw_mutators_raise_witness :
    FilterWheel.EFWSetPosition 0 5 0 = Except.ok true ∧
    (∃ e, FilterWheel.EFWSetPosition 0 5 1 = Except.error e) :=
  ⟨((c1_amended_efw_mutators_raise 0 5 0 true []).1 rfl).2.2.1,
   ((c1_amended_efw_mutators_raise 0 5 1 true []).2 (by decide)).2.2.1⟩

/-- C2: for every native entry point outside its family's allow-list, a
nonzero return value that is not a member of the family's error-code
enumeration surfaces the distinct unknown-code failure (the `ValueError`
raised by the enumeration lookup, the spec's `UnknownCode`) — by the stated
equality it is neither a success nor one of the named error kinds. -/
theorem c2_unknown_code :
    (∀ (name : String) (r : Int), name ∈ eafFunctionNames →
      name ∉ eafSpecialNames → r ≠ 0 → EAF_ERROR_CODE.ofInt? r = none →
      ZwoEafDevice.call name r =
        Except.error (PyError.valueError r "EAF_ERROR_CODE")) ∧
    (∀ (name : String) (r : Int), name ∈ efwFunctionNames →
      name ∉ efwSpecialNames → r ≠ 0 → EFW_ERROR_CODE.ofInt? r = none →
      ZwoEfwDevice.call name r =
        Except.error (PyError.valueError r "EFW_ERROR_CODE")) := by
  constructor
  · intro name r _ h hr hc
    exact eafCall_unknown name r h hr hc
  · intro name r _ h hr hc
    exact efwCall_unknown name r h hr hc

/-- C2 witness: the unrecognised nonzero code 10 yields the unknown-code
failure in both families. -/
theorem c2_unknown_code_witness :
    ZwoEafDevice.call "EAFMove" 10 =
      Except.error (PyError.valueError 10 "EAF_ERROR_CODE") ∧
    ZwoEfwDevice.call "EFWSetPosition" 10 =
      Except.error (PyError.valueError 10 "EFW_ERROR_CODE") :=
  ⟨c2_unknown_code.1 "EAFMove" 10 (by decide) (by decide) (by decide) (by decide),
   c2_unknown_code.2 "EFWSetPosition" 10 (by decide) (by decide) (by decide) (by decide)⟩

/-- C3: for every native entry point outside its family's allow-list, return
value 0 yields success (with the by-reference out-parameters handed back to
the caller, shown on the position getters), and every nonzero return value
that is an enumeration member raises a failure named after the matching
enumeration entry. -/
theorem c3_error_mapper :
    (∀ name : String, name ∈ eafFunctionNames → name ∉ eafSpecialNames →
      ZwoEafDevice.call name 0 = Except.ok 0) ∧
    (∀ (name : String) (r : Int) (c : EAF_ERROR_CODE), name ∈ eafFunctionNames →
      name ∉ eafSpecialNames → r ≠ 0 → EAF_ERROR_CODE.ofInt? r = some c →
      ZwoEafDevice.call name r = Except.error (PyError.zwoFocuserError c.pyName)) ∧
    (∀ name : String, name ∈ efwFunctionNames → name ∉ efwSpecialNames →
      ZwoEfwDevice.call name 0 = Except.ok 0) ∧
    (∀ (name : String) (r : Int) (c : EFW_ERROR_CODE), name ∈ efwFunctionNames →
      name ∉ efwSpecialNames → r ≠ 0 → EFW_ERROR_CODE.ofInt? r = some c →
      ZwoEfwDevice.call name r =
        Except.error (PyError.zwoFilterWheelError (efwErrMsg name r c.pyName))) ∧
    (∀ ids position : Int, Focuser.EAFGetPosition ids 0 position = Except.ok position) ∧
    (∀ ids position : Int, FilterWheel.EFWGetPosition ids 0 position = Except.ok position) := by
  refine ⟨?_, ?_, ?_, ?_, ?_, ?_⟩
  · intro name _ h
    exact eafCall_zero name
  · intro name r c _ h hr hc
    exact eafCall_known name r c h hr hc
  · intro name _ h
    exact efwCall_zero name
  · intro name r c _ h hr hc
    exact efwCall_known name r c h hr hc
  · intro ids position
    simp only [Focuser.EAFGetPosition]
    rw [eafCall_zero]
    rfl
  · intro ids position
    simp only [FilterWheel.EFWGetPosition]
    rw [efwCall_zero]
    rfl

/-- C3 witness: `EAFMove` succeeds on 0 and raises the kind named
`EAF_ERROR_INVALID_INDEX` on 1; `EFWSetPosition` likewise in its family. -/
theorem c3_error_mapper_witness :
    ZwoEafDevice.call "EAFMove" 0 = Except.ok 0 ∧
    ZwoEafDevice.call "EAFMove" 1 =
      Except.error (PyError.zwoFocuserError "EAF_ERROR_INVALID_INDEX") ∧
    ZwoEfwDevice.call "EFWSetPosition" 1 =
      Except.error (PyError.zwoFilterWheelError
        "EFWSetPosition error 1 (EFW_ERROR_INVALID_INDEX)") :=
  ⟨c3_error_mapper.1 "EAFMove" (by decide) (by decide),
   c3_error_mapper.2.1 "EAFMove" 1 .EAF_ERROR_INVALID_INDEX
     (by decide) (by decide) (by decide) (by decide),
   c3_error_mapper.2.2.2.1 "EFWSetPosition" 1 .EFW_ERROR_INVALID_INDEX
     (by decide) (by decide) (by decide) (by decide)⟩

/-- C4 counterexample: the claim says every native failure carries both the
offending operation's name and the matched kind.  The focuser failure for
`EAFMove` with native code 1 carries only the kind name
`"EAF_ERROR_INVALID_INDEX"`, which does not contain the operation name
`"EAFMove"`. -/
theorem c4_counterexample :
    ZwoEafDevice.call "EAFMove" 1 =
      Except.error (PyError.zwoFocuserError "EAF_ERROR_INVALID_INDEX") ∧
    containsStr "EAF_ERROR_INVALID_INDEX" "EAFMove" = false := by
  exact ⟨rfl, by decide⟩

/-- C4 (amended): every filter-wheel native failure carries a message built
from the operation name, the raw code and the matched kind (so it contains
both, as checked on a concrete instance), while every focuser native failure
carries only the matched kind's name (and in particular not the operation
name, as checked on a concrete instance). -/
theorem c4_amended_payloads :
    (∀ (name : String) (r : Int) (c : EFW_ERROR_CODE), name ∈ efwFunctionNames →
      name ∉ efwSpecialNames → r ≠ 0 → EFW_ERROR_CODE.ofInt? r = some c →
      ∃ msg, ZwoEfwDevice.call name r =
          Except.error (PyError.zwoFilterWheelError msg) ∧
        msg = name ++ " error " ++ toString r ++ " (" ++ c.pyName ++ ")") ∧
    (∀ (name : String) (r : Int) (c : EAF_ERROR_CODE), name ∈ eafFunctionNames →
      name ∉ eafSpecialNames → r ≠ 0 → EAF_ERROR_CODE.ofInt? r = some c →
      ZwoEafDevice.call name r =
        Except.error (PyError.zwoFocuserError c.pyName)) ∧
    containsStr (efwErrMsg "EFWSetPosition" 1 "EFW_ERROR_INVALID_INDEX")
      "EFWSetPosition" = true ∧
    containsStr (efwErrMsg "EFWSetPosition" 1 "EFW_ERROR_INVALID_INDEX")
      "EFW_ERROR_INVALID_INDEX" = true ∧
    containsStr "EAF_ERROR_INVALID_INDEX" "EAFMove" = false := by
  refine ⟨?_, ?_, by decide, by decide, by decide⟩
  · intro name r c _ h hr hc
    exact ⟨efwErrMsg name r c.pyName,
      efwCall_known name r c h hr hc, rfl⟩
  · intro name r c _ h hr hc
    exact eafCall_known name r c h hr hc

/-- C4 (amended) witness at a concrete input. -/
theorem c4_amended_payloads_witness :
    ZwoEafDevice.call "EAFStop" 2 =
      Except.error (PyError.zwoFocuserError "EAF_ERROR_INVALID_ID") :=
  c4_amended_payloads.2.1 "EAFStop" 2 .EAF_ERROR_INVALID_ID
    (by decide) (by decide) (by decide) (by decide)

/-- C5: for every allow-listed entry point of either family the dispatch
layer hands the raw native return value back unchanged, for every integer
value, and never raises from it; the client wrappers for get-count and
check-device-type pass it through to the caller. -/
theorem c5_allowlist_passthrough :
    (∀ (name : String) (r : Int), name ∈ eafSpecialNames →
      ZwoEafDevice.call name r = Except.ok r) ∧
    (∀ (name : String) (r : Int), name ∈ efwSpecialNames →
      ZwoEfwDevice.call name r = Except.ok r) ∧
    (∀ r : Int, Focuser.EAFGetNum r = Except.ok r) ∧
    (∀ vid pid r : Int, Focuser.EAFCheck vid pid r = Except.ok r) ∧
    (∀ r : Int, FilterWheel.EFWGetNum r = Except.ok r) := by
  refine ⟨?_, ?_, ?_, ?_, ?_⟩
  · intro name r h
    exact eafCall_special name r h
  · intro name r h
    exact efwCall_special name r h
  · intro r
    exact eafCall_special "EAFGetNum" r (by decide)
  · intro vid pid r
    exact eafCall_special "EAFCheck" r (by decide)
  · intro r
    exact efwCall_special "EFWGetNum" r (by decide)

/-- C5 witness: negative and positive raw values pass through untouched. -/
theorem c5_allowlist_passthrough_witness :
    ZwoEafDevice.call "EAFGetNum" (-5) = Except.ok (-5) ∧
    ZwoEfwDevice.call "EFWGetNum" 7 = Except.ok 7 :=
  ⟨c5_allowlist_passthrough.1 "EAFGetNum" (-5) (by decide),
   c5_allowlist_passthrough.2.1 "EFWGetNum" 7 (by decide)⟩

/-- C6 counterexample: the claim says the firmware-version query returns the
string `"1.2.15"` when the native call writes the bytes (1, 2, 15); the
filter-wheel family's query instead returns the raw tuple `(1, 2, 15)`,
which is not that string. -/
theorem c6_counterexample :
    FilterWheel.EFWGetFirmwareVersion 0 0 1 2 15 =
      Except.ok (PyValue.tup [1, 2, 15]) ∧
    PyValue.tup [1, 2, 15] ≠ PyValue.str "1.2.15" := by
  exact ⟨rfl, by decide⟩

/-- C6 (amended): on native success the focuser family formats the byte
triple as the text `major.minor.build` — in particular (1, 2, 15) becomes
`"1.2.15"` — while the filter-wheel family returns the raw triple as a tuple,
unformatted. -/
theorem c6_amended_firmware :
    ∀ (ids : Int) (major minor build : Nat),
      Focuser.EAFGetFirmwareVersion ids 0 major minor build =
        Except.ok (PyValue.str
          (toString major ++ "." ++ toString minor ++ "." ++ toString build)) ∧
      FilterWheel.EFWGetFirmwareVersion ids 0 major minor build =
        Except.ok (PyValue.tup [major, minor, build]) ∧
      Focuser.EAFGetFirmwareVersion ids 0 1 2 15 =
        Except.ok (PyValue.str "1.2.15") := by
  intro ids major minor build
  exact ⟨rfl, rfl, rfl⟩

/-- C7: on native success the focuser's serial-number query decodes the
8-byte record big-endian (an all-zero buffer ending in 0x05 decodes to 5),
while the filter-wheel's query returns the raw 8-byte record undecoded. -/
theorem c7_serial_asymmetry :
    ∀ (ids : Int) (serial : List Nat),
      Focuser.EAFGetSerialNumber ids 0 serial =
        Except.ok (bytesToNatBE serial) ∧
      FilterWheel.EFWGetSerialNumber ids 0 serial = Except.ok serial ∧
      Focuser.EAFGetSerialNumber ids 0 [0, 0, 0, 0, 0, 0, 0, 5] =
        Except.ok 5 := by
  intro ids serial
  exact ⟨rfl, rfl, rfl⟩

/-- C8: for every logical length 0 ≤ n ≤ 128 reported by the native
get-product-IDs call against the fixed 128-slot buffer, both families return
exactly the first n buffer slots, a sequence of exactly n elements. -/
theorem c8_product_ids :
    ∀ (n : Int) (buffer : List Int), buffer.length = 128 → 0 ≤ n → n ≤ 128 →
      Focuser.EAFGetProductIDs buffer n = Except.ok (buffer.take n.toNat) ∧
      FilterWheel.EFWGetProductIDs buffer n = Except.ok (buffer.take n.toNat) ∧
      (buffer.take n.toNat).length = n.toNat := by
  intro n buffer hlen hn0 hn128
  have hslice : pySliceTo buffer n = buffer.take n.toNat := by
    unfold pySliceTo
    rw [if_neg (by omega)]
  refine ⟨?_, ?_, ?_⟩
  · simp only [Focuser.EAFGetProductIDs]
    rw [eafCall_special _ _ (by decide)]
    simp [Except.map, hslice]
  · simp only [FilterWheel.EFWGetProductIDs]
    rw [efwCall_special _ _ (by decide)]
    simp [Except.map, hslice]
  · rw [List.length_take, hlen]
    omega

/-- C8 witness: a reported length of 3 against a 128-slot buffer yields
exactly the first 3 slots. -/
theorem c8_product_ids_witness :
    Focuser.EAFGetProductIDs ([10, 20, 30] ++ List.replicate 125 0) 3 =
      Except.ok [10, 20, 30] := by
  have h := (c8_product_ids 3 ([10, 20, 30] ++ List.replicate 125 0)
    (by simp) (by norm_num) (by norm_num)).1
  simpa [List.take_append_eq_append_take] using h

/-- C9: the library resolver's lookup table maps each of the four supported
(OS family, word width) pairs to exactly the documented (architecture
subdirectory, filename) pair, per family; every pair outside the table fails
resolution (the `KeyError` at module import time, before any device call),
modelled as `none`. -/
theorem c9_arch_table :
    eafArch "posix" "32bit" = some ("linux32", "libEAFFocuser.so") ∧
    eafArch "posix" "64bit" = some ("linux64", "libEAFFocuser.so") ∧
    eafArch "nt" "32bit" = some ("win32", "EAF_focuser.dll") ∧
    eafArch "nt" "64bit" = some ("win64", "EAF_focuser.dll") ∧
    efwArch "posix" "32bit" = some ("linux32", "libEFWFilter.so") ∧
    efwArch "posix" "64bit" = some ("linux64", "libEFWFilter.so") ∧
    efwArch "nt" "32bit" = some ("win32", "EFW_filter.dll") ∧
    efwArch "nt" "64bit" = some ("win64", "EFW_filter.dll") ∧
    (∀ osName width : String,
      (osName ≠ "posix" ∧ osName ≠ "nt") ∨ (width ≠ "32bit" ∧ width ≠ "64bit") →
      eafArch osName width = none ∧ efwArch osName width = none) := by
  refine ⟨rfl, rfl, rfl, rfl, rfl, rfl, rfl, rfl, ?_⟩
  intro osName width h
  rcases h with ⟨h1, h2⟩ | ⟨h1, h2⟩ <;>
    exact ⟨by simp [eafArch, h1, h2], by simp [efwArch, h1, h2]⟩

/-- C9 witness: an unsupported (OS, width) pair resolves to nothing in both
families. -/
theorem c9_arch_table_witness :
    eafArch "darwin" "64bit" = none ∧ efwArch "darwin" "64bit" = none :=
  c9_arch_table.2.2.2.2.2.2.2.2 "darwin" "64bit" (by decide)

/-- C10: none of the ten focuser boolean mutating operations can ever return
`False`: whenever one of them returns a boolean at all (rather than raising),
that boolean is `True`, for every native return value. -/
theorem c10_never_false :
    ∀ (ids position backlash r : Int) (flag : Bool) (eaf_id : List Nat) (b : Bool),
      (Focuser.EAFOpen ids r = Except.ok b → b = true) ∧
      (Focuser.EAFMove ids position r = Except.ok b → b = true) ∧
      (Focuser.EAFStop ids r = Except.ok b → b = true) ∧
      (Focuser.EAFResetPostion ids position r = Except.ok b → b = true) ∧
      (Focuser.EAFSetBeep ids flag r = Except.ok b → b = true) ∧
      (Focuser.EAFSetMaxStep ids position r = Except.ok b → b = true) ∧
      (Focuser.EAFSetReverse ids flag r = Except.ok b → b = true) ∧
      (Focuser.EAFSetBacklash ids backlash r = Except.ok b → b = true) ∧
      (Focuser.EAFClose ids r = Except.ok b → b = true) ∧
      (Focuser.EAFSetID ids eaf_id r = Except.ok b → b = true) := by
  intro ids position backlash r flag eaf_id b
  refine ⟨?_, ?_, ?_, ?_, ?_, ?_, ?_, ?_, ?_, ?_⟩ <;>
    intro hb <;>
    first
    | exact mapCall_ok_imp_true _ _ (eafCall_zero "EAFOpen") rfl
        (fun s hs => eafCall_err "EAFOpen" s (by decide) hs) r b hb
    | exact mapCall_ok_imp_true _ _ (eafCall_zero "EAFMove") rfl
        (fun s hs => eafCall_err "EAFMove" s (by decide) hs) r b hb
    | exact mapCall_ok_imp_true _ _ (eafCall_zero "EAFStop") rfl
        (fun s hs => eafCall_err "EAFStop" s (by decide) hs) r b hb
    | exact mapCall_ok_imp_true _ _ (eafCall_zero "EAFResetPostion") rfl
        (fun s hs => eafCall_err "EAFResetPostion" s (by decide) hs) r b hb
    | exact mapCall_ok_imp_true _ _ (eafCall_zero "EAFSetBeep") rfl
        (fun s hs => eafCall_err "EAFSetBeep" s (by decide) hs) r b hb
    | exact mapCall_ok_imp_true _ _ (eafCall_zero "EAFSetMaxStep") rfl
        (fun s hs => eafCall_err "EAFSetMaxStep" s (by decide) hs) r b hb
    | exact mapCall_ok_imp_true _ _ (eafCall_zero "EAFSetReverse") rfl
        (fun s hs => eafCall_err "EAFSetReverse" s (by decide) hs) r b hb
    | exact mapCall_ok_imp_true _ _ (eafCall_zero "EAFSetBacklash") rfl
        (fun s hs => eafCall_err "EAFSetBacklash" s (by decide) hs) r b hb
    | exact mapCall_ok_imp_true _ _ (eafCall_zero "EAFClose") rfl
        (fun s hs => eafCall_err "EAFClose" s (by decide) hs) r b hb
    | exact mapCall_ok_imp_true _ _ (eafCall_zero "EAFSetID") rfl
        (fun s hs => eafCall_err "EAFSetID" s (by decide) hs) r b hb

/-- C10 witness at a concrete input: `EAFOpen` with native code 0 returns a
boolean, and that boolean is `True`. -/
theorem c10_never_false_witness :
    Focuser.EAFOpen 0 0 = Except.ok true ∧ true = true :=
  ⟨rfl, (c10_never_false 0 0 0 0 true [] true).1 rfl⟩

end Zwo
